import Mathlib

/-!
Verification of `src/utils/string_utils.py`.

The repository holds a single Python function:

    def capitalize_first_letter(string):
        """
        Capitalize the first letter of a string
        If string is None, return empty string
        Otherwise, return the string with the first letter capitalized
        """
        return string[0].upper() + string[1:]

We embed Python strings as `List Char`, an optional argument as
`Option PyStr` (the argument `None` becomes `none`), and the fallible
evaluation of the body as `Except PyErr PyStr`:

  * `string[0]` on `None` raises a `TypeError` (the spec's InvalidInput
    condition) before any guard could run, so the docstring's
    "return empty string" fallback is unreachable;
  * `string[0]` on the empty string raises an `IndexError`;
  * otherwise the body evaluates to `string[0].upper() + string[1:]`.

Python's `str.upper()` maps one character to a *string*, which may have
more than one character (full Unicode case mapping, e.g. `'ß'.upper()`
is `"SS"`). `pyUpper` embeds that mapping on the character ranges this
development evaluates it on.
-/

/-- A Python string: an immutable sequence of characters. -/
abbrev PyStr := List Char

/-- The Python exceptions the body of `capitalize_first_letter` can raise. -/
inductive PyErr where
  /-- `TypeError`: subscripting `None`. The spec calls this condition
  InvalidInput (the caller supplied no value). -/
  | typeError
  /-- `IndexError`: `string[0]` on an empty string. -/
  | indexError
deriving DecidableEq, Repr

/-- Python's `str.upper()` applied to a single character, as the list of
characters of the resulting string. Embedded from CPython's Unicode full
case mapping, restricted to the ASCII and Latin-1 characters this
development evaluates it on; characters outside those ranges are left
unchanged. Note `'ß'` (U+00DF) maps to the two-character string `"SS"`,
and `'ÿ'` (U+00FF) maps to `'Ÿ'` (U+0178). -/
def pyUpper (c : Char) : List Char :=
  if c = 'ß' then ['S', 'S']
  else if c = 'ÿ' then ['Ÿ']
  else if ('a' ≤ c ∧ c ≤ 'z') ∨ ('à' ≤ c ∧ c ≤ 'þ' ∧ c ≠ '÷') then
    [Char.ofNat (c.toNat - 32)]
  else [c]

/-- `capitalize_first_letter` from `src/utils/string_utils.py`.
The body is the single expression `string[0].upper() + string[1:]`:

  * argument `None` (`none`): `None[0]` raises `TypeError`;
  * empty string: `""[0]` raises `IndexError`;
  * non-empty string `c :: rest`: `string[0].upper()` is `pyUpper c` and
    `string[1:]` is `rest`, concatenated with `+`. -/
def capitalize_first_letter : Option PyStr → Except PyErr PyStr
  | none => .error .typeError
  | some [] => .error .indexError
  | some (c :: rest) => .ok (pyUpper c ++ rest)

/-- Claim C1: on an absent input (`None`), `capitalize_first_letter` fails
with the spec's InvalidInput condition (the `TypeError` from subscripting
`None`), and never returns a value — in particular the docstring's
"return empty string" fallback is never the outcome. -/
theorem capitalize_none_errors :
    capitalize_first_letter none = .error .typeError ∧
    ∀ out : PyStr, capitalize_first_letter none ≠ .ok out := by
  refine ⟨rfl, ?_⟩
  intro out h
  simp [capitalize_first_letter] at h

/-- Claim C8: on a present but empty string, `capitalize_first_letter`
does not return any value: `string[0]` raises `IndexError`, so the empty
string is outside the function's domain. -/
theorem capitalize_empty_errors :
    capitalize_first_letter (some []) = .error .indexError ∧
    ∀ out : PyStr, capitalize_first_letter (some []) ≠ .ok out := by
  refine ⟨rfl, ?_⟩
  intro out h
  simp [capitalize_first_letter] at h

/-- Claim C6: the spec's concrete scenarios: `"hello" ↦ "Hello"`,
`"Hello" ↦ "Hello"`, `"1abc" ↦ "1abc"`, `"ábc" ↦ "Ábc"`. -/
theorem capitalize_scenarios :
    capitalize_first_letter (some "hello".toList) = .ok "Hello".toList ∧
    capitalize_first_letter (some "Hello".toList) = .ok "Hello".toList ∧
    capitalize_first_letter (some "1abc".toList) = .ok "1abc".toList ∧
    capitalize_first_letter (some "ábc".toList) = .ok "Ábc".toList := by
  refine ⟨?_, ?_, ?_, ?_⟩ <;> rfl

/-- Claim C2, as stated, is false: for `s = "ß"` the output is `"SS"`,
whose first character (the one-character string `"S"`, i.e. `take 1`) is
not the upper-case form `"SS"` of the input's first character. -/
theorem capitalize_head_counterexample :
    capitalize_first_letter (some "ß".toList) = .ok "SS".toList ∧
    List.take 1 "SS".toList ≠ pyUpper 'ß' := by
  refine ⟨rfl, ?_⟩
  decide

/-- Claim C2 amended: for every non-empty string, the output begins with
the upper-case form of the input's first character — the first
`(pyUpper c).length` output characters are exactly `pyUpper c`. When that
upper-case form is a single character this gives the original claim
`capitalize_first_letter(s)[0] == upper(s[0])`. -/
theorem capitalize_head_upper (c : Char) (rest : PyStr) (out : PyStr)
    (h : capitalize_first_letter (some (c :: rest)) = .ok out) :
    out.take (pyUpper c).length = pyUpper c := by
  simp only [capitalize_first_letter, Except.ok.injEq] at h
  subst h
  exact List.take_left _ _

/-- Witness for `capitalize_head_upper` at the input `"hello"`. -/
theorem capitalize_head_upper_witness :
    List.take (pyUpper 'h').length "Hello".toList = pyUpper 'h' :=
  capitalize_head_upper 'h' "ello".toList "Hello".toList rfl

/-- Claim C3, as stated, is false: for `s = "ß"` the output is `"SS"`,
and `"SS"[1:] = "S"` differs from `s[1:] = ""`; the output differs from
the input beyond the first character's case. -/
theorem capitalize_tail_counterexample :
    capitalize_first_letter (some "ß".toList) = .ok "SS".toList ∧
    List.drop 1 "SS".toList ≠ List.drop 1 "ß".toList := by
  refine ⟨rfl, ?_⟩
  decide

/-- Claim C3 amended: for every non-empty string, the output past the
upper-cased first character equals the input's remainder `s[1:]` — the
output is exactly `upper(s[0]) + s[1:]`. When `upper(s[0])` is a single
character this gives the original claim
`capitalize_first_letter(s)[1:] == s[1:]`. -/
theorem capitalize_tail_unchanged (c : Char) (rest : PyStr) (out : PyStr)
    (h : capitalize_first_letter (some (c :: rest)) = .ok out) :
    out.drop (pyUpper c).length = rest := by
  simp only [capitalize_first_letter, Except.ok.injEq] at h
  subst h
  exact List.drop_left _ _

/-- Witness for `capitalize_tail_unchanged` at the input `"hello"`. -/
theorem capitalize_tail_unchanged_witness :
    List.drop (pyUpper 'h').length "Hello".toList = "ello".toList :=
  capitalize_tail_unchanged 'h' "ello".toList "Hello".toList rfl

/-- Claim C4, as stated, is false: for `s = "ß"` the output `"SS"` has
length 2 while the input has length 1. -/
theorem capitalize_length_counterexample :
    capitalize_first_letter (some "ß".toList) = .ok "SS".toList ∧
    List.length "SS".toList ≠ List.length "ß".toList := by
  refine ⟨rfl, ?_⟩
  decide

/-- Claim C4 amended: for every non-empty string whose first character's
upper-case form is a single character, the output has the same length as
the input. -/
theorem capitalize_length_preserved (c : Char) (rest : PyStr) (out : PyStr)
    (h : capitalize_first_letter (some (c :: rest)) = .ok out)
    (h1 : (pyUpper c).length = 1) :
    out.length = (c :: rest).length := by
  simp only [capitalize_first_letter, Except.ok.injEq] at h
  subst h
  simp [h1]
  omega

/-- Witness for `capitalize_length_preserved` at the input `"hello"`. -/
theorem capitalize_length_preserved_witness :
    List.length "Hello".toList = List.length "hello".toList :=
  capitalize_length_preserved 'h' "ello".toList "Hello".toList rfl (by decide)

/-- Claim C9: there is a non-empty input on which the output length
differs from the input length: `"ß"` maps to `"SS"`, length 2 versus 1. -/
theorem capitalize_length_not_preserved :
    ∃ s out : PyStr, s ≠ [] ∧
      capitalize_first_letter (some s) = .ok out ∧
      out.length ≠ s.length :=
  ⟨"ß".toList, "SS".toList, by decide, rfl, by decide⟩

/-- Claim C5: idempotence on strings whose first character has a stable,
single-character upper-case form: if `pyUpper c = [u]` and
`pyUpper u = [u]`, then applying `capitalize_first_letter` to the output
returns that same output. -/
theorem capitalize_idempotent (c u : Char) (rest : PyStr) (out : PyStr)
    (h : capitalize_first_letter (some (c :: rest)) = .ok out)
    (h1 : pyUpper c = [u]) (h2 : pyUpper u = [u]) :
    capitalize_first_letter (some out) = .ok out := by
  simp only [capitalize_first_letter, Except.ok.injEq] at h
  subst h
  rw [h1]
  simp [capitalize_first_letter, h2]

/-- Witness for `capitalize_idempotent` at the input `"hello"`. -/
theorem capitalize_idempotent_witness :
    capitalize_first_letter (some "Hello".toList) = .ok "Hello".toList :=
  capitalize_idempotent 'h' 'H' "ello".toList "Hello".toList rfl
    (by decide) (by decide)

/-- Claim C10: fixed point on already-capitalized input: if the first
character equals its own upper-case form (`pyUpper c = [c]`), the output
equals the input. -/
theorem capitalize_fixed_point (c : Char) (rest : PyStr)
    (h : pyUpper c = [c]) :
    capitalize_first_letter (some (c :: rest)) = .ok (c :: rest) := by
  simp [capitalize_first_letter, h]

/-- Witness for `capitalize_fixed_point` at the input `"Hello"`. -/
theorem capitalize_fixed_point_witness :
    capitalize_first_letter (some "Hello".toList) = .ok "Hello".toList :=
  capitalize_fixed_point 'H' "ello".toList (by decide)

/-- Claim C7: `capitalize_first_letter` is pure and deterministic: the
result depends only on the argument, so equal inputs give equal results.
The embedding as a total function on immutable `List Char` values also
reflects that the Python body only reads its argument (Python strings are
immutable) and builds a fresh output with `+`, never mutating the
caller's value. -/
theorem capitalize_deterministic (x y : Option PyStr) (h : x = y) :
    capitalize_first_letter x = capitalize_first_letter y := by
  rw [h]

/-- Witness for `capitalize_deterministic` at the input `"hello"`. -/
theorem capitalize_deterministic_witness :
    capitalize_first_letter (some "hello".toList) =
      capitalize_first_letter (some "hello".toList) :=
  capitalize_deterministic (some "hello".toList) (some "hello".toList) rfl
